import Mathlib

/-!
Shallow embedding of `herepy/traffic_api.py` (class `TrafficApi`), covering
the JSON response handling of the shared request path `__get`, the error
classifier `__get_error_from_response`, the three parameter-encoding helpers
`__prepare_criticality_str_values`, `__prepare_criticality_int_values` and
`__prepare_corridor_value`, and the query dictionaries built by the three
public operations `incidents_in_bounding_box`, `incidents_in_corridor` and
`incidents_via_proximity`.

Modelling conventions:
- A JSON value decoded by Python's `json.loads` is a `JValue`; a decoded
  top-level JSON object (a Python `dict`) is an association list
  `List (String × JValue)` with unique keys (as `json.loads` produces).
- Python floats and enum renderings (`str(x)`, `IncidentsCriticalityStr.__str__`,
  `IncidentsCriticalityInt.__int__`) are performed outside this file's scope:
  latitude/longitude values and criticality string tokens enter the encoders
  as their already-rendered strings, and integer criticality levels as `Int`
  (Python `str` of an int and Lean `toString : Int → String` agree).
- Python string slicing `s[:-1]` is `pyDropLast`; Python `dict.get` is
  `dictGet` / `dictGet` with `Option.getD` for a default.
- The HTTP transport and URL building are external collaborators; `__get` is
  modelled from the point where the response body has been parsed into JSON.
-/

/-- JSON values as decoded by Python's `json.loads`: null, booleans, numbers,
strings, arrays and objects.  Numbers are modelled as `Int`; no claim inspects
a numeric payload. -/
inductive JValue where
  | JNull : JValue
  | JBool : Bool → JValue
  | JNum : Int → JValue
  | JStr : String → JValue
  | JArr : List JValue → JValue
  | JObj : List (String × JValue) → JValue

/-- Lookup in a decoded Python `dict` (association list with unique keys):
`d.get(k)` returns the value when the key is present, else Python `None`
(here `none`). -/
def dictGet {α : Type} : List (String × α) → String → Option α
  | [], _ => none
  | (k', v) :: rest, k => if k' == k then some v else dictGet rest k

/-- Python `v == "s"` for a JSON value `v`: true exactly when `v` is the
string `s` (comparing a non-string or `None` to a `str` is `False`). -/
def isStrEq (v : JValue) (s : String) : Bool :=
  match v with
  | .JStr t => t == s
  | _ => false

/-- Python `d.get(k) == "s"`: the absent case compares `None` to a string,
which is `False`. -/
def optIsStr (o : Option JValue) (s : String) : Bool :=
  match o with
  | some v => isStrEq v s
  | none => false

/-- JSON `null` decodes to Python `None`; `isNull v` is true exactly for it. -/
def isNull (v : JValue) : Bool :=
  match v with
  | .JNull => true
  | _ => false

set_option linter.dupNamespace false in
/-- The error hierarchy of `herepy.error` as used by `TrafficApi`:
`UnauthorizedError`, `InvalidRequestError`, and the base/generic `HEREError`.
Each carries the message object it was constructed with (a JSON value, since
`json_data["error_description"]` / `json_data.get("Message", ...)` can be any
decoded value). -/
inductive HEREError where
  | UnauthorizedError : JValue → HEREError
  | InvalidRequestError : JValue → HEREError
  | HEREError : JValue → HEREError

/-- The message object an error was constructed with. -/
def msgOf : HEREError → JValue
  | .UnauthorizedError m => m
  | .InvalidRequestError m => m
  | .HEREError m => m

/-- The three error kinds of the taxonomy, for stating which constructor a
classifier result was built with. -/
inductive ErrKind where
  | unauthorized : ErrKind
  | invalidRequest : ErrKind
  | generic : ErrKind
deriving DecidableEq

/-- The kind (constructor) of a `HEREError` value. -/
def kindOf : HEREError → ErrKind
  | .UnauthorizedError _ => .unauthorized
  | .InvalidRequestError _ => .invalidRequest
  | .HEREError _ => .generic

/-- A Python exception escaping the classifier (only `KeyError` can, from
`json_data["error_description"]` on a missing key). -/
inductive PyExn where
  | KeyError : String → PyExn

/-- Lines 51-58 of `__get_error_from_response`: the common tail reached when
the `Unauthorized` early return did not fire.  `caller` is the name produced
by `sys._getframe(1).f_code.co_name` (the calling frame), threaded here as a
parameter.  The source spells the fallback "Error occured on "; we keep the
typo. -/
def classifyTail (caller : String) (json_data : List (String × JValue)) : HEREError :=
  let error_type := dictGet json_data "Type"
  let error_message := (dictGet json_data "Message").getD
    (.JStr ("Error occured on " ++ caller))
  if optIsStr error_type "Invalid Request" then
    .InvalidRequestError error_message
  else
    .HEREError error_message

/-- `TrafficApi.__get_error_from_response`: first the `"error" in json_data`
membership test, then the equality test against `"Unauthorized"`; on that
branch `json_data["error_description"]` is a bare subscript, raising
`KeyError` when the key is absent (modelled as `Except.error`).  Otherwise
control falls through to `classifyTail`. -/
def __get_error_from_response (caller : String) (json_data : List (String × JValue)) :
    Except PyExn HEREError :=
  match dictGet json_data "error" with
  | some v =>
    if isStrEq v "Unauthorized" then
      match dictGet json_data "error_description" with
      | some d => .ok (.UnauthorizedError d)
      | none => .error (.KeyError "error_description")
    else
      .ok (classifyTail caller json_data)
  | none => .ok (classifyTail caller json_data)

/-- `herepy.models.TrafficIncidentResponse`: the deserialized success payload,
opaque pass-through of the decoded JSON object. -/
structure TrafficIncidentResponse where
  json : List (String × JValue)

/-- `TrafficIncidentResponse.new_from_jsondict json_data` (deserialization is
pass-through for the purposes of this model). -/
def new_from_jsondict (json_data : List (String × JValue)) : TrafficIncidentResponse :=
  ⟨json_data⟩

/-- Outcome of `__get` after the body has been parsed: a returned response, a
raised `HEREError`, or an exception escaping the classifier uncaught. -/
inductive GetOutcome where
  | response : TrafficIncidentResponse → GetOutcome
  | raisedError : HEREError → GetOutcome
  | uncaught : PyExn → GetOutcome

/-- `GetOutcome.response`-ness as a boolean. -/
def isResponse : GetOutcome → Bool
  | .response _ => true
  | _ => false

/-- `Except.error`-ness of a classifier result as a boolean. -/
def raisesExn (r : Except PyExn HEREError) : Bool :=
  match r with
  | .error _ => true
  | .ok _ => false

/-- `TrafficApi.__get`, from the point where `json.loads` has produced
`json_data`.  The test is `json_data.get('TRAFFICITEMS') != None`: Python's
`.get` yields `None` both when the key is absent and when its value is JSON
`null`, so the success branch requires a present, non-null value.  On the
error branch the classifier's `sys._getframe(1)` sees the frame of `__get`. -/
def __get (json_data : List (String × JValue)) : GetOutcome :=
  match dictGet json_data "TRAFFICITEMS" with
  | some v =>
    if isNull v then
      match __get_error_from_response "__get" json_data with
      | .ok e => .raisedError e
      | .error exn => .uncaught exn
    else
      .response (new_from_jsondict json_data)
  | none =>
    match __get_error_from_response "__get" json_data with
    | .ok e => .raisedError e
    | .error exn => .uncaught exn

/-- Python string slicing `s[:-1]`: drop the final character (identity on the
empty string). -/
def pyDropLast (s : String) : String :=
  String.mk s.data.dropLast

/-- `TrafficApi.__prepare_criticality_str_values`: the loop appends each
level's string token plus `','`, then slices off the final character.  The
enum rendering `criticality.__str__()` lives in `herepy.here_enum`, outside
this file's scope; the tokens enter already rendered. -/
def __prepare_criticality_str_values (criticality_enums : List String) : String :=
  pyDropLast (criticality_enums.foldl (fun acc c => acc ++ c ++ ",") "")

/-- `TrafficApi.__prepare_criticality_int_values`: the loop appends
`str(criticality.__int__())` plus `','` per level, then slices off the final
character.  Integer levels enter as `Int`; Python `str` of an int and
`toString : Int → String` agree. -/
def __prepare_criticality_int_values (criticality_enums : List Int) : String :=
  pyDropLast (criticality_enums.foldl (fun acc c => acc ++ toString c ++ ",") "")

/-- A corridor point rendered as `"{lat},{lon}"` (`str.format('{0},{1}', ...)`
on the already-rendered coordinates). -/
def pairStr (p : String × String) : String :=
  p.1 ++ "," ++ p.2

/-- `TrafficApi.__prepare_corridor_value`: the loop appends
`"{lat},{lon};"` per point, then appends `str(width)`. -/
def __prepare_corridor_value (points : List (String × String)) (width : Int) : String :=
  (points.foldl (fun acc p => acc ++ p.1 ++ "," ++ p.2 ++ ";") "") ++ toString width

/-- The query dictionary built by `incidents_in_bounding_box` (insertion
order `bbox`, `apiKey`, `criticality`); `bbox` is
`"{lat1},{lon1};{lat2},{lon2}"` from the two corner points. -/
def incidents_in_bounding_box_data (api_key : String)
    (top_left bottom_right : String × String) (criticality : List String) :
    List (String × String) :=
  [("bbox", top_left.1 ++ "," ++ top_left.2 ++ ";" ++ bottom_right.1 ++ "," ++ bottom_right.2),
   ("apiKey", api_key),
   ("criticality", __prepare_criticality_str_values criticality)]

/-- The query dictionary built by `incidents_in_corridor` (insertion order
`corridor`, `apiKey`). -/
def incidents_in_corridor_data (api_key : String)
    (points : List (String × String)) (width : Int) : List (String × String) :=
  [("corridor", __prepare_corridor_value points width),
   ("apiKey", api_key)]

/-- The query dictionary built by `incidents_via_proximity` (insertion order
`prox`, `criticality`, `apiKey`); `prox` is `"{lat},{lon},{radius}"`. -/
def incidents_via_proximity_data (api_key latitude longitude : String)
    (radius : Int) (criticality : List Int) : List (String × String) :=
  [("prox", latitude ++ "," ++ longitude ++ "," ++ toString radius),
   ("criticality", __prepare_criticality_int_values criticality),
   ("apiKey", api_key)]

/-- Modelled from the spec: tokens joined by a separator with no leading or
trailing separator ("maps each level to its string token, joins with `,`"). -/
def joinSepStr (sep : String) : List String → String
  | [] => ""
  | [t] => t
  | t :: t' :: ts => t ++ sep ++ joinSepStr sep (t' :: ts)

/-- Modelled from the spec's words for the corridor format: the pairs joined
with `;`, then `;{width}` appended ("joins `{lat},{lon}` per point with `;`,
then appends `;{width}`"). -/
def corridor_claim_format (points : List (String × String)) (width : Int) : String :=
  joinSepStr ";" (points.map pairStr) ++ ";" ++ toString width


/-! ### String fold lemmas for the joining loops -/

/-- The accumulator of the criticality joining loop factors out front. -/
theorem comma_foldl_out (l : List String) :
    ∀ a : String,
      List.foldl (fun acc c => acc ++ c ++ ",") a l
        = a ++ List.foldl (fun acc c => acc ++ c ++ ",") "" l := by
  induction l with
  | nil => intro a; simp [String.append_empty]
  | cons t ts ih =>
    intro a
    simp only [List.foldl_cons]
    rw [ih ("" ++ t ++ ","), ih (a ++ t ++ ",")]
    simp [String.empty_append, String.append_assoc]

/-- The accumulator of the corridor joining loop factors out front. -/
theorem corridor_foldl_out (l : List (String × String)) :
    ∀ a : String,
      List.foldl (fun acc p => acc ++ p.1 ++ "," ++ p.2 ++ ";") a l
        = a ++ List.foldl (fun acc p => acc ++ p.1 ++ "," ++ p.2 ++ ";") "" l := by
  induction l with
  | nil => intro a; simp [String.append_empty]
  | cons p ps ih =>
    intro a
    simp only [List.foldl_cons]
    rw [ih ("" ++ p.1 ++ "," ++ p.2 ++ ";"), ih (a ++ p.1 ++ "," ++ p.2 ++ ";")]
    simp [String.empty_append, String.append_assoc]

/-- The integer joining loop is the string joining loop over rendered levels. -/
theorem int_fold_eq_map (l : List Int) :
    ∀ a : String,
      List.foldl (fun acc c => acc ++ toString c ++ ",") a l
        = List.foldl (fun acc c => acc ++ c ++ ",") a (l.map toString) := by
  induction l with
  | nil => intro a; rfl
  | cons t ts ih =>
    intro a
    simp only [List.foldl_cons, List.map_cons]
    exact ih _

/-- `joinSepStr` on a cons with a non-empty tail. -/
theorem joinSep_cons_of_ne_nil (sep t : String) {ts : List String} (h : ts ≠ []) :
    joinSepStr sep (t :: ts) = t ++ sep ++ joinSepStr sep ts := by
  cases ts with
  | nil => exact absurd rfl h
  | cons u us => rfl

/-- The criticality joining loop produces the separator-joined tokens plus a
trailing comma. -/
theorem comma_fold_eq_joinSep (l : List String) :
    l ≠ [] →
      List.foldl (fun acc c => acc ++ c ++ ",") "" l = joinSepStr "," l ++ "," := by
  induction l with
  | nil => intro h; exact absurd rfl h
  | cons t ts ih =>
    intro _
    cases ts with
    | nil => simp [joinSepStr, String.empty_append]
    | cons u us =>
      rw [List.foldl_cons]
      rw [comma_foldl_out (u :: us) ("" ++ t ++ ","), ih (by simp),
        joinSep_cons_of_ne_nil "," t (by simp)]
      simp [String.empty_append, String.append_assoc]

/-- Python `[:-1]` undoes a trailing comma. -/
theorem pyDropLast_append_comma (s : String) : pyDropLast (s ++ ",") = s := by
  apply String.ext
  show ((s ++ ",").data).dropLast = s.data
  rw [String.data_append, show ("," : String).data = [','] from rfl]
  exact List.dropLast_concat

/-- The string-criticality joiner is the comma-join of its tokens (for the
empty token list both sides are `""`). -/
theorem prepare_str_eq_joinSep (l : List String) :
    __prepare_criticality_str_values l = joinSepStr "," l := by
  cases l with
  | nil => rfl
  | cons t ts =>
    show pyDropLast (List.foldl (fun acc c => acc ++ c ++ ",") "" (t :: ts)) = _
    rw [comma_fold_eq_joinSep (t :: ts) (by simp)]
    exact pyDropLast_append_comma _

/-- The integer-criticality joiner is the comma-join of the decimal forms. -/
theorem prepare_int_eq_joinSep (l : List Int) :
    __prepare_criticality_int_values l = joinSepStr "," (l.map toString) := by
  show pyDropLast (List.foldl (fun acc c => acc ++ toString c ++ ",") "" l) = _
  rw [int_fold_eq_map l ""]
  exact prepare_str_eq_joinSep (l.map toString)

/-- One step of the corridor joining loop. -/
theorem corridor_fold_cons (p : String × String) (ps : List (String × String)) :
    List.foldl (fun acc q => acc ++ q.1 ++ "," ++ q.2 ++ ";") "" (p :: ps)
      = (p.1 ++ "," ++ p.2 ++ ";")
        ++ List.foldl (fun acc q => acc ++ q.1 ++ "," ++ q.2 ++ ";") "" ps := by
  simp only [List.foldl_cons]
  rw [corridor_foldl_out ps ("" ++ p.1 ++ "," ++ p.2 ++ ";")]
  simp [String.empty_append]

/-- The corridor encoder semicolon-joins the rendered pairs and the width,
with no leading or trailing separator (so an empty point list gives just the
width). -/
theorem corridor_value_eq (points : List (String × String)) (width : Int) :
    __prepare_corridor_value points width
      = joinSepStr ";" (points.map pairStr ++ [toString width]) := by
  induction points with
  | nil =>
    show ("" : String) ++ toString width = _
    simp [joinSepStr, String.empty_append]
  | cons p ps ih =>
    show List.foldl (fun acc q => acc ++ q.1 ++ "," ++ q.2 ++ ";") "" (p :: ps)
        ++ toString width = _
    rw [corridor_fold_cons, String.append_assoc]
    rw [show List.foldl (fun acc q => acc ++ q.1 ++ "," ++ q.2 ++ ";") "" ps
        ++ toString width = __prepare_corridor_value ps width from rfl]
    rw [ih, List.map_cons, List.cons_append,
      joinSep_cons_of_ne_nil ";" (pairStr p) (by simp)]
    simp [pairStr, String.append_assoc]

/-! ### Counting and last-character lemmas for the comma join -/

/-- Comma count of a comma-join of comma-free tokens. -/
theorem joinSep_comma_count :
    ∀ l : List String, l ≠ [] → (∀ t ∈ l, ',' ∉ t.data) →
      (joinSepStr "," l).data.count ',' = l.length - 1 := by
  intro l
  induction l with
  | nil => intro h _; exact absurd rfl h
  | cons t ts ih =>
    intro _ hc
    cases ts with
    | nil =>
      show t.data.count ',' = _
      rw [List.count_eq_zero.mpr (hc t (by simp))]
      simp
    | cons u us =>
      rw [joinSep_cons_of_ne_nil "," t (by simp)]
      rw [String.data_append, String.data_append,
        show ("," : String).data = [','] from rfl]
      rw [List.count_append, List.count_append]
      rw [List.count_eq_zero.mpr (hc t (by simp))]
      rw [ih (by simp) (fun x hx => hc x (by simp [hx]))]
      simp [List.count_singleton, List.length_cons]
      omega

/-- A comma-join of non-empty tokens over a non-empty list is non-empty. -/
theorem joinSep_comma_data_ne_nil :
    ∀ l : List String, l ≠ [] → (∀ t ∈ l, t.data ≠ []) →
      (joinSepStr "," l).data ≠ [] := by
  intro l
  cases l with
  | nil => intro h _; exact absurd rfl h
  | cons t ts =>
    intro _ hne
    cases ts with
    | nil =>
      show t.data ≠ []
      exact hne t (by simp)
    | cons u us =>
      rw [joinSep_cons_of_ne_nil "," t (by simp)]
      simp [String.data_append, show ("," : String).data = [','] from rfl]

/-- A comma-join of non-empty, comma-free tokens never ends in a comma. -/
theorem joinSep_comma_getLast :
    ∀ l : List String, (∀ t ∈ l, t.data ≠ [] ∧ ',' ∉ t.data) →
      (joinSepStr "," l).data.getLast? ≠ some ',' := by
  intro l
  induction l with
  | nil => intro _; decide
  | cons t ts ih =>
    intro hall
    cases ts with
    | nil =>
      show t.data.getLast? ≠ some ','
      intro hEq
      exact (hall t (by simp)).2 (List.mem_of_getLast?_eq_some hEq)
    | cons u us =>
      rw [joinSep_cons_of_ne_nil "," t (by simp)]
      have hR : (joinSepStr "," (u :: us)).data ≠ [] :=
        joinSep_comma_data_ne_nil (u :: us) (by simp)
          (fun x hx => (hall x (by simp [hx])).1)
      obtain ⟨r, hr⟩ : ∃ r, (joinSepStr "," (u :: us)).data.getLast? = some r := by
        cases hx : (joinSepStr "," (u :: us)).data.getLast? with
        | none => exact absurd (List.getLast?_eq_none_iff.mp hx) hR
        | some r => exact ⟨r, rfl⟩
      rw [String.data_append, List.getLast?_append, hr, Option.or_some]
      intro hEq
      have hr' : r = ',' := by injection hEq
      exact ih (fun x hx => hall x (by simp [hx])) (hr.trans (by rw [hr']))

/-! ### Claim theorems -/

/-- C1 (counterexample): on the JSON object `{"TRAFFICITEMS": null}` the key
is present, yet `__get` raises the generic error instead of returning a
deserialized response, refuting the claim that key presence alone (even with
a null value) yields a response. -/
theorem trafficitems_null_raises_not_response :
    __get [("TRAFFICITEMS", .JNull)]
      = .raisedError (.HEREError (.JStr "Error occured on __get"))
    ∧ isResponse (__get [("TRAFFICITEMS", .JNull)]) = false :=
  ⟨rfl, rfl⟩

/-- C1 (amended): `__get` returns a deserialized `TrafficIncidentResponse`
exactly when the `"TRAFFICITEMS"` key is present with a non-null value; when
the key is absent or its value is null, an error is raised instead. -/
theorem get_response_iff_trafficitems_present_nonnull
    (json_data : List (String × JValue)) :
    isResponse (__get json_data) = true
      ↔ ∃ v, dictGet json_data "TRAFFICITEMS" = some v ∧ isNull v = false := by
  unfold __get
  cases h : dictGet json_data "TRAFFICITEMS" with
  | none =>
    cases he : __get_error_from_response "__get" json_data <;> simp [isResponse]
  | some v =>
    cases hv : isNull v with
    | false => simp [hv, isResponse]
    | true =>
      cases he : __get_error_from_response "__get" json_data <;>
        simp [hv, isResponse]

/-- C2 (counterexample): on the JSON object `{"error": "Unauthorized"}` with
no `"error_description"` field, `__get_error_from_response` does not return
an `ApiError` but raises `KeyError` itself, refuting totality. -/
theorem classifier_keyerror_on_missing_description :
    __get_error_from_response "incidents_in_bounding_box"
      [("error", .JStr "Unauthorized")]
      = .error (.KeyError "error_description") :=
  rfl

/-- C2 (amended): the classifier returns some `ApiError` for every JSON
object except exactly those whose `"error"` field equals `"Unauthorized"`
while `"error_description"` is absent, where it raises `KeyError`. -/
theorem classifier_raises_iff_unauthorized_without_description
    (caller : String) (json_data : List (String × JValue)) :
    raisesExn (__get_error_from_response caller json_data) = true
      ↔ optIsStr (dictGet json_data "error") "Unauthorized" = true
        ∧ dictGet json_data "error_description" = none := by
  unfold __get_error_from_response
  cases h : dictGet json_data "error" with
  | none => simp [raisesExn, optIsStr]
  | some v =>
    cases hv : isStrEq v "Unauthorized" with
    | false => simp [hv, raisesExn, optIsStr]
    | true =>
      cases hd : dictGet json_data "error_description" with
      | none => simp [hv, hd, raisesExn, optIsStr]
      | some d => simp [hv, hd, raisesExn, optIsStr]

/-- C3 (counterexample): for an empty point list the corridor encoder outputs
just the width (`"50"`), not the claimed `";50"` (zero pairs followed by
`;width`), refuting the claimed format at `k = 0`. -/
theorem corridor_empty_points_differs_from_claim :
    __prepare_corridor_value [] 50 = "50"
    ∧ corridor_claim_format [] 50 = ";50"
    ∧ __prepare_corridor_value [] 50 ≠ corridor_claim_format [] 50 := by
  refine ⟨rfl, rfl, ?_⟩
  decide

/-- C3 (amended): the corridor encoder semicolon-joins the `k` rendered
`"{lat},{lon}"` pairs together with the width as the final component, with no
trailing separator: for `k ≥ 1` this is the `k` pairs `;`-separated followed
by `;width`, while for `k = 0` it is just the width with no separator. -/
theorem corridor_value_joins_pairs_then_width
    (points : List (String × String)) (width : Int) :
    __prepare_corridor_value points width
      = joinSepStr ";" (points.map pairStr ++ [toString width]) :=
  corridor_value_eq points width

/-- C4: whenever the JSON object's `"error"` field equals `"Unauthorized"`
and `"error_description"` is present, the classifier produces an
`UnauthorizedError` carrying the `"error_description"` value, regardless of
any `"Type"`/`"Message"` fields also present. -/
theorem unauthorized_uses_error_description
    (caller : String) (json_data : List (String × JValue)) (d : JValue)
    (h1 : dictGet json_data "error" = some (.JStr "Unauthorized"))
    (h2 : dictGet json_data "error_description" = some d) :
    __get_error_from_response caller json_data = .ok (.UnauthorizedError d) := by
  unfold __get_error_from_response
  rw [h1]
  simp [isStrEq, h2]

/-- C4 (witness): concrete object with `error = "Unauthorized"`,
`error_description = "bad key"` and competing `Type`/`Message` fields. -/
theorem unauthorized_uses_error_description_witness :
    __get_error_from_response "incidents_in_bounding_box"
      [("error", .JStr "Unauthorized"), ("error_description", .JStr "bad key"),
       ("Type", .JStr "Invalid Request"), ("Message", .JStr "other")]
      = .ok (.UnauthorizedError (.JStr "bad key")) :=
  unauthorized_uses_error_description "incidents_in_bounding_box"
    [("error", .JStr "Unauthorized"), ("error_description", .JStr "bad key"),
     ("Type", .JStr "Invalid Request"), ("Message", .JStr "other")]
    (.JStr "bad key") rfl rfl

/-- C5: for every object not matching the Unauthorized shape (whether or not
`"Message"` is present) the classifier returns an error whose kind is
`InvalidRequestError` exactly when `"Type"` equals `"Invalid Request"` and
the generic `HEREError` otherwise; and whenever `"Message"` is present its
value is the message. -/
theorem type_branch_kind_and_message
    (caller : String) (json_data : List (String × JValue))
    (h1 : optIsStr (dictGet json_data "error") "Unauthorized" = false) :
    ∃ e, __get_error_from_response caller json_data = .ok e
      ∧ kindOf e = (if optIsStr (dictGet json_data "Type") "Invalid Request"
                    then .invalidRequest else .generic)
      ∧ ∀ m, dictGet json_data "Message" = some m → msgOf e = m := by
  refine ⟨if optIsStr (dictGet json_data "Type") "Invalid Request"
          then .InvalidRequestError ((dictGet json_data "Message").getD
            (.JStr ("Error occured on " ++ caller)))
          else .HEREError ((dictGet json_data "Message").getD
            (.JStr ("Error occured on " ++ caller))), ?_, ?_, ?_⟩
  · unfold __get_error_from_response classifyTail
    cases h : dictGet json_data "error" with
    | none => simp
    | some v =>
      rw [h] at h1
      simp only [optIsStr] at h1
      simp [h1]
  · cases hT : optIsStr (dictGet json_data "Type") "Invalid Request" <;>
      simp [hT, kindOf]
  · intro m hm
    cases hT : optIsStr (dictGet json_data "Type") "Invalid Request" <;>
      simp [hT, msgOf, hm]

/-- C5 (witness): `{"Type": "Invalid Request", "Message": "bad bbox"}`
classifies as `InvalidRequestError("bad bbox")`. -/
theorem type_branch_kind_and_message_witness :
    __get_error_from_response "incidents_in_bounding_box"
      [("Type", .JStr "Invalid Request"), ("Message", .JStr "bad bbox")]
      = .ok (.InvalidRequestError (.JStr "bad bbox")) := by
  obtain ⟨e, he, hk, hm⟩ := type_branch_kind_and_message "incidents_in_bounding_box"
    [("Type", .JStr "Invalid Request"), ("Message", .JStr "bad bbox")] rfl
  have hk' : kindOf e = ErrKind.invalidRequest := hk.trans (by rfl)
  cases e with
  | UnauthorizedError m => simp [kindOf] at hk'
  | InvalidRequestError m =>
    have hmsg : m = .JStr "bad bbox" := hm (.JStr "bad bbox") rfl
    rw [he, hmsg]
  | HEREError m => simp [kindOf] at hk'

/-- C6: for an object lacking `"Message"` and not matching the Unauthorized
shape, the classifier returns an error whose message is the non-empty
fallback string `"Error occured on " ++ caller`. -/
theorem fallback_message_nonempty
    (caller : String) (json_data : List (String × JValue))
    (h1 : optIsStr (dictGet json_data "error") "Unauthorized" = false)
    (h2 : dictGet json_data "Message" = none) :
    ∃ e, __get_error_from_response caller json_data = .ok e
      ∧ msgOf e = .JStr ("Error occured on " ++ caller)
      ∧ ("Error occured on " ++ caller) ≠ "" := by
  have hne : ("Error occured on " ++ caller) ≠ "" := by
    intro hEq
    have hlen := congrArg String.length hEq
    rw [String.length_append] at hlen
    rw [show ("Error occured on " : String).length = 17 from rfl] at hlen
    rw [show ("" : String).length = 0 from rfl] at hlen
    omega
  refine ⟨if optIsStr (dictGet json_data "Type") "Invalid Request"
          then .InvalidRequestError (.JStr ("Error occured on " ++ caller))
          else .HEREError (.JStr ("Error occured on " ++ caller)), ?_, ?_, hne⟩
  · unfold __get_error_from_response classifyTail
    cases h : dictGet json_data "error" with
    | none => simp [h2]
    | some v =>
      rw [h] at h1
      simp only [optIsStr] at h1
      simp [h1, h2]
  · cases optIsStr (dictGet json_data "Type") "Invalid Request" <;> simp [msgOf]

/-- C6 (witness): `{"Type": "ServerFault"}` with no `Message` yields a
generic error with the non-empty fallback message. -/
theorem fallback_message_nonempty_witness :
    ∃ e, __get_error_from_response "incidents_in_bounding_box"
        [("Type", .JStr "ServerFault")] = .ok e
      ∧ msgOf e = .JStr ("Error occured on " ++ "incidents_in_bounding_box")
      ∧ ("Error occured on " ++ "incidents_in_bounding_box") ≠ "" :=
  fallback_message_nonempty "incidents_in_bounding_box"
    [("Type", .JStr "ServerFault")] rfl rfl

/-- C7: for a non-empty list of `n` criticality tokens (each a non-empty,
comma-free enum token), the string-criticality joiner returns the tokens
joined with commas: exactly `n - 1` comma characters and no trailing
comma. -/
theorem criticality_str_join_properties
    (tokens : List String) (h : tokens ≠ [])
    (htok : ∀ t ∈ tokens, t.data ≠ [] ∧ ',' ∉ t.data) :
    __prepare_criticality_str_values tokens = joinSepStr "," tokens
    ∧ (__prepare_criticality_str_values tokens).data.count ',' = tokens.length - 1
    ∧ (__prepare_criticality_str_values tokens).data.getLast? ≠ some ',' := by
  have he := prepare_str_eq_joinSep tokens
  refine ⟨he, ?_, ?_⟩
  · rw [he]
    exact joinSep_comma_count tokens h (fun t ht => (htok t ht).2)
  · rw [he]
    exact joinSep_comma_getLast tokens htok

/-- C7 (witness): tokens `["critical", "major"]` join to `"critical,major"`:
one comma, none trailing. -/
theorem criticality_str_join_properties_witness :
    __prepare_criticality_str_values ["critical", "major"] = "critical,major"
    ∧ (__prepare_criticality_str_values ["critical", "major"]).data.count ',' = 1
    ∧ (__prepare_criticality_str_values ["critical", "major"]).data.getLast?
        ≠ some ',' := by
  have h := criticality_str_join_properties ["critical", "major"]
    (by simp) (by decide)
  exact ⟨h.1.trans (by decide), h.2.1, h.2.2⟩

/-- C8: `incidents_via_proximity` sends `prox = "{lat},{lon},{radius}"` and
`criticality` as the comma-joined decimal forms of the integer levels. -/
theorem proximity_request_params
    (api_key latitude longitude : String) (radius : Int)
    (criticality : List Int) :
    dictGet (incidents_via_proximity_data api_key latitude longitude radius
        criticality) "prox"
      = some (latitude ++ "," ++ longitude ++ "," ++ toString radius)
    ∧ dictGet (incidents_via_proximity_data api_key latitude longitude radius
        criticality) "criticality"
      = some (joinSepStr "," (criticality.map toString)) := by
  refine ⟨rfl, ?_⟩
  show some (__prepare_criticality_int_values criticality) = _
  rw [prepare_int_eq_joinSep]

/-- C9: every operation's query dictionary carries `apiKey`, and each carries
exactly its operation-specific keys: `bbox`+`criticality` for bounding box,
only `corridor` for corridor (no `criticality`), `prox`+`criticality` for
proximity. -/
theorem request_param_keys
    (api_key : String) (top_left bottom_right : String × String)
    (crit_str : List String) (points : List (String × String)) (width : Int)
    (latitude longitude : String) (radius : Int) (crit_int : List Int) :
    (incidents_in_bounding_box_data api_key top_left bottom_right
        crit_str).map Prod.fst = ["bbox", "apiKey", "criticality"]
    ∧ (incidents_in_corridor_data api_key points width).map Prod.fst
        = ["corridor", "apiKey"]
    ∧ (incidents_via_proximity_data api_key latitude longitude radius
        crit_int).map Prod.fst = ["prox", "criticality", "apiKey"]
    ∧ dictGet (incidents_in_bounding_box_data api_key top_left bottom_right
        crit_str) "apiKey" = some api_key
    ∧ dictGet (incidents_in_corridor_data api_key points width) "apiKey"
        = some api_key
    ∧ dictGet (incidents_via_proximity_data api_key latitude longitude radius
        crit_int) "apiKey" = some api_key
    ∧ dictGet (incidents_in_corridor_data api_key points width) "criticality"
        = none :=
  ⟨rfl, rfl, rfl, rfl, rfl, rfl, rfl⟩

/-- C10: with an empty criticality collection both joiners return the empty
string, and the bounding-box and proximity queries still send a `criticality`
parameter whose value is the empty string (present, not omitted). -/
theorem empty_criticality_yields_empty_param
    (api_key : String) (top_left bottom_right : String × String)
    (latitude longitude : String) (radius : Int) :
    __prepare_criticality_str_values [] = ""
    ∧ __prepare_criticality_int_values [] = ""
    ∧ dictGet (incidents_in_bounding_box_data api_key top_left bottom_right [])
        "criticality" = some ""
    ∧ dictGet (incidents_via_proximity_data api_key latitude longitude radius [])
        "criticality" = some "" :=
  ⟨rfl, rfl, rfl, rfl⟩
